import Mathlib

/-!
# fpsgame: the per-frame simulation step of `gameState.c`

A shallow embedding of `isSphereCollision`, `processEnemies`, `processVelocities`,
`processCollisions`, `getTurningFactor` and `gameStateUpdate`.

Numbers: C `float` values are read as elements of a linearly ordered field `K`
with exact arithmetic (`ℚ` evaluates, `ℝ` carries the genuine square root, sine
and `π`).  The C math library (`sqrt`, `sin`, `cos`, `M_PI`) is a parameter of the
definitions, so that every definition below is computable.
-/

namespace FpsGame

/-! ## Vector utility -/

/-- A 4-component vector (`VECTOR` in the source). -/
structure VECTOR (K : Type) where
  x : K
  y : K
  z : K
  w : K
deriving DecidableEq

/-- The C math library functions and the constant `M_PI` used by `gameState.c`. -/
structure MathLib (K : Type) where
  sqrt : K → K
  sin : K → K
  cos : K → K
  M_PI : K

section Defs

variable {K : Type} [LinearOrderedField K]

/-- Modelled from the spec: the vector header is not part of the sources; `VectorSet`
builds a vector from its four components. -/
def VectorSet (x y z w : K) : VECTOR K := ⟨x, y, z, w⟩

/-- Modelled from the spec: the vector header is not part of the sources; `VectorReplicate`
copies one scalar into all four components. -/
def VectorReplicate (a : K) : VECTOR K := ⟨a, a, a, a⟩

/-- Modelled from the spec: the vector header is not part of the sources; component-wise
addition of 4-vectors. -/
def VectorAdd (a b : VECTOR K) : VECTOR K := ⟨a.x + b.x, a.y + b.y, a.z + b.z, a.w + b.w⟩

/-- Modelled from the spec: the vector header is not part of the sources; component-wise
subtraction of 4-vectors. -/
def VectorSubtract (a b : VECTOR K) : VECTOR K := ⟨a.x - b.x, a.y - b.y, a.z - b.z, a.w - b.w⟩

/-- Modelled from the spec: the vector header is not part of the sources; component-wise
product of 4-vectors. -/
def VectorMultiply (a b : VECTOR K) : VECTOR K := ⟨a.x * b.x, a.y * b.y, a.z * b.z, a.w * b.w⟩

/-- Modelled from the spec: the vector header is not part of the sources; component-wise
quotient of 4-vectors. -/
def VectorDivide (a b : VECTOR K) : VECTOR K := ⟨a.x / b.x, a.y / b.y, a.z / b.z, a.w / b.w⟩

/-- Modelled from the spec: the vector header is not part of the sources; dot product of the
first three components. -/
def Vector3Dot (a b : VECTOR K) : K := a.x * b.x + a.y * b.y + a.z * b.z

/-- Modelled from the spec: the vector header is not part of the sources; dot product of all
four components. -/
def Vector4Dot (a b : VECTOR K) : K := a.x * b.x + a.y * b.y + a.z * b.z + a.w * b.w

/-- Modelled from the spec: the vector header is not part of the sources; Euclidean length of
the first three components. -/
def Vector3Length (sqrt : K → K) (a : VECTOR K) : K := sqrt (Vector3Dot a a)

/-- Modelled from the spec: the vector header is not part of the sources; Euclidean length of
all four components. -/
def Vector4Length (sqrt : K → K) (a : VECTOR K) : K := sqrt (Vector4Dot a a)

/-- Modelled from the spec: the vector header is not part of the sources; the vector divided
by its 4-component length. -/
def Vector4Normalize (sqrt : K → K) (a : VECTOR K) : VECTOR K :=
  VectorDivide a (VectorReplicate (Vector4Length sqrt a))

/-- Modelled from the spec: the vector header is not part of the sources; compare-equal,
returning a bit mask with bit `k` set when the `k`-th components are equal. -/
def VectorEqual (a b : VECTOR K) : Nat :=
  (if a.x = b.x then 1 else 0) + (if a.y = b.y then 2 else 0) +
    (if a.z = b.z then 4 else 0) + (if a.w = b.w then 8 else 0)

/-- Modelled from the spec: the vector header is not part of the sources; cross product of the
first three components, fourth component zero. -/
def VectorCross (a b : VECTOR K) : VECTOR K :=
  ⟨a.y * b.z - a.z * b.y, a.z * b.x - a.x * b.z, a.x * b.y - a.y * b.x, 0⟩

/-! ## Constants of `gameState.c` -/

/-- `#define MOUSE_SENSITIVITY 0.006f` -/
def MOUSE_SENSITIVITY : K := 6 / 1000

/-- `#define MOVEMENT_SPEED .02f` -/
def MOVEMENT_SPEED : K := 2 / 100

/-- `#define TURNING_TIME 1500.0f` -/
def TURNING_TIME : K := 1500

/-- `#define DYING_TIME 3000.0f` -/
def DYING_TIME : K := 3000

/-! ## Collision detector -/

/-- The function `isSphereCollision` (gameState.c, lines 22-46); the C `int` result is read
as a `Bool`. -/
def isSphereCollision (sqrt : K → K) (pos0 pos1 : VECTOR K) (radius0 radius1 : K)
    (movevec : VECTOR K) : Bool :=
  let c := VectorSubtract pos1 pos0
  let radiiSum := radius0 + radius1
  if Vector3Length sqrt movevec < Vector3Length sqrt c - radiiSum then false
  else
    let n := if VectorEqual movevec (VectorReplicate 0) &&& 0x7 = 0x7 then movevec
             else Vector4Normalize sqrt movevec
    let d := Vector3Dot n c
    if d < 0 then false
    else
      let f := Vector3Dot c c - d * d
      let radiiSumSquared := radiiSum * radiiSum
      if f ≥ radiiSumSquared then false
      else
        let t := radiiSumSquared - f
        if t < 0 then false
        else
          let distance := d - sqrt t
          let mag := Vector3Length sqrt movevec
          decide (mag ≥ distance)

/-! ## Entity table and game state -/

/-- The constants of the entity header, which is not part of the sources: the capacity
`MAX_ENTITIES` and the component bit masks.  They are parameters of the model. -/
structure Config where
  MAX_ENTITIES : Nat
  POSITION_COMPONENT_MASK : Nat
  VELOCITY_COMPONENT_MASK : Nat
  COLLIDER_COMPONENT_MASK : Nat
  MODEL_COMPONENT_MASK : Nat
  ENEMY_COMPONENT_MASK : Nat

/-- The parallel component arrays of `struct EntityManager`, indexed by entity id.
`positions i` stands for `positions[i].position` and `colliders i` for `colliders[i].radius`. -/
structure EntityManager (K : Type) where
  entityMasks : Nat → Nat
  positions : Nat → VECTOR K
  velocities : Nat → VECTOR K
  colliders : Nat → K

/-- The fields of `playerData`. -/
structure PlayerData (K : Type) where
  turn : K
  dead : Int
  deadTimer : K

/-- The fields of `struct GameState` that the simulation step reads or writes. -/
structure GameState (K : Type) where
  manager : EntityManager K
  player : Nat
  playerData : PlayerData K
  position : VECTOR K
  yaw : K
  pitch : K
  noclip : Int

/-- The keys read from `SDL_GetKeyboardState`; SDL stores 1 for a pressed key and 0 otherwise,
read here as a `Bool`. -/
structure Keys where
  SDL_SCANCODE_A : Bool
  SDL_SCANCODE_D : Bool
  SDL_SCANCODE_W : Bool
  SDL_SCANCODE_S : Bool
  SDL_SCANCODE_SPACE : Bool
  SDL_SCANCODE_LSHIFT : Bool

/-- The test `(entityMasks[i] & mask) == mask`. -/
def hasMask (m mask : Nat) : Prop := m &&& mask = mask

instance (m mask : Nat) : Decidable (hasMask m mask) := by
  unfold hasMask; infer_instance

/-! ## Systems -/

/-- Loop body of `processEnemies` (gameState.c, lines 53-61) for index `i`. -/
def processEnemiesBody (cfg : Config) (sqrt : K → K) (playerPos : VECTOR K)
    (manager : EntityManager K) (i : Nat) : EntityManager K :=
  let mask := cfg.POSITION_COMPONENT_MASK ||| cfg.VELOCITY_COMPONENT_MASK |||
    cfg.ENEMY_COMPONENT_MASK
  if hasMask (manager.entityMasks i) mask then
    let pos := manager.positions i
    let toward := VectorSubtract playerPos pos
    if VectorEqual toward (VectorReplicate 0) &&& 0x7 = 0x7 then
      { manager with velocities := Function.update manager.velocities i (VectorReplicate 0) }
    else
      { manager with
        velocities := Function.update manager.velocities i
          (VectorDivide (Vector4Normalize sqrt toward) (VectorReplicate 100)) }
  else manager

/-- The function `processEnemies` (gameState.c, lines 48-63). -/
def processEnemies (cfg : Config) (sqrt : K → K) (gameState : GameState K) (_dt : K) :
    GameState K :=
  let playerPos := gameState.manager.positions gameState.player
  { gameState with
    manager := (List.range cfg.MAX_ENTITIES).foldl
      (processEnemiesBody cfg sqrt playerPos) gameState.manager }

/-- Loop body of `processVelocities` (gameState.c, lines 69-72) for index `i`. -/
def processVelocitiesBody (cfg : Config) (dt : K) (manager : EntityManager K) (i : Nat) :
    EntityManager K :=
  let mask := cfg.POSITION_COMPONENT_MASK ||| cfg.VELOCITY_COMPONENT_MASK
  if hasMask (manager.entityMasks i) mask then
    { manager with
      positions := Function.update manager.positions i
        (VectorAdd (manager.positions i)
          (VectorMultiply (VectorReplicate dt) (manager.velocities i))) }
  else manager

/-- The function `processVelocities` (gameState.c, lines 65-74). -/
def processVelocities (cfg : Config) (gameState : GameState K) (dt : K) : GameState K :=
  { gameState with
    manager := (List.range cfg.MAX_ENTITIES).foldl
      (processVelocitiesBody cfg dt) gameState.manager }

/-- Body of the inner loop of `processCollisions` (gameState.c, lines 86-96) for the pair
`(i, j)`. -/
def processCollisionsPair (cfg : Config) (sqrt : K → K) (dt : K) (i : Nat)
    (gameState : GameState K) (j : Nat) : GameState K :=
  let manager := gameState.manager
  let mask := cfg.POSITION_COMPONENT_MASK ||| cfg.VELOCITY_COMPONENT_MASK |||
    cfg.COLLIDER_COMPONENT_MASK
  let pos0 := manager.positions i
  let velocity0 := manager.velocities i
  let radius0 := manager.colliders i
  if hasMask (manager.entityMasks j) mask then
    let pos1 := manager.positions j
    let velocity1 := manager.velocities j
    let radius1 := manager.colliders j
    let movevec := VectorMultiply (VectorReplicate dt) (VectorSubtract velocity0 velocity1)
    if isSphereCollision sqrt pos0 pos1 radius0 radius1 movevec then
      { gameState with playerData := { gameState.playerData with dead := 1 } }
    else gameState
  else gameState

/-- Body of the outer loop of `processCollisions` (gameState.c, lines 80-98) for index `i`:
the inner loop runs `j` over `i + 1, ..., MAX_ENTITIES - 1`. -/
def processCollisionsBody (cfg : Config) (sqrt : K → K) (dt : K)
    (gameState : GameState K) (i : Nat) : GameState K :=
  let mask := cfg.POSITION_COMPONENT_MASK ||| cfg.VELOCITY_COMPONENT_MASK |||
    cfg.COLLIDER_COMPONENT_MASK
  if hasMask (gameState.manager.entityMasks i) mask then
    (List.range' (i + 1) (cfg.MAX_ENTITIES - (i + 1))).foldl
      (processCollisionsPair cfg sqrt dt i) gameState
  else gameState

/-- The outer loop of `processCollisions` from index `i` on, with its guard
`i < MAX_ENTITIES && i == gameState->player` (gameState.c, line 79). -/
def processCollisionsLoop (cfg : Config) (sqrt : K → K) (dt : K)
    (gameState : GameState K) (i : Nat) : GameState K :=
  if i < cfg.MAX_ENTITIES ∧ i = gameState.player then
    processCollisionsLoop cfg sqrt dt (processCollisionsBody cfg sqrt dt gameState i) (i + 1)
  else gameState
termination_by cfg.MAX_ENTITIES - i
decreasing_by omega

/-- The function `processCollisions` (gameState.c, lines 76-100). -/
def processCollisions (cfg : Config) (sqrt : K → K) (gameState : GameState K) (dt : K) :
    GameState K :=
  processCollisionsLoop cfg sqrt dt gameState 0

/-- The function `getTurningFactor` (gameState.c, lines 102-106). -/
def getTurningFactor (L : MathLib K) (turn : K) : K :=
  let x := turn / TURNING_TIME
  L.sin (1 / 2 * L.M_PI * x)

/-! ## The simulation step -/

/-- Lines 118-122 of `gameStateUpdate`: the time scale of this frame. -/
def timeScale (gameState : GameState K) : K :=
  if gameState.playerData.dead ≠ 0 then 0 else 1

/-- Lines 119-122 of `gameStateUpdate`: a dead player accumulates the unscaled `dt`. -/
def deathFreeze (gameState : GameState K) (dt : K) : GameState K :=
  if gameState.playerData.dead ≠ 0 then
    { gameState with
      playerData :=
        { gameState.playerData with deadTimer := gameState.playerData.deadTimer + dt } }
  else gameState

/-- Lines 132-142 of `gameStateUpdate`: the turn accumulator after key handling and
clamping; `dt` is the scaled time. -/
def handleTurning (keys : Keys) (turn dt : K) : K :=
  let turn1 :=
    if xor keys.SDL_SCANCODE_A keys.SDL_SCANCODE_D then
      turn + (if keys.SDL_SCANCODE_A then -dt else dt)
    else if |turn| < TURNING_TIME / 3 then
      if turn < -dt then turn + dt
      else if turn > dt then turn - dt
      else 0
    else turn
  if turn1 < -TURNING_TIME then -TURNING_TIME
  else if turn1 > TURNING_TIME then TURNING_TIME
  else turn1

/-- Lines 125-144 of `gameStateUpdate`: mouse look in noclip mode, turning otherwise;
`mouse` is the relative mouse state `(x, y)` and `dt` the scaled time. -/
def handleInput (L : MathLib K) (keys : Keys) (mouse : Int × Int)
    (gameState : GameState K) (dt : K) : GameState K :=
  if gameState.noclip ≠ 0 then
    { gameState with
      yaw := gameState.yaw - (mouse.1 : K) * MOUSE_SENSITIVITY
      pitch := gameState.pitch - (mouse.2 : K) * MOUSE_SENSITIVITY }
  else
    let turn := handleTurning keys gameState.playerData.turn dt
    { gameState with
      playerData := { gameState.playerData with turn := turn }
      yaw := gameState.yaw - 6 / 1000 * getTurningFactor L turn * dt }

/-- Lines 146-149 of `gameStateUpdate`: one wrap of the yaw and the clamp of the pitch. -/
def wrapAngles (L : MathLib K) (gameState : GameState K) : GameState K :=
  { gameState with
    yaw :=
      if gameState.yaw > L.M_PI then gameState.yaw - 2 * L.M_PI
      else if gameState.yaw < -L.M_PI then gameState.yaw + 2 * L.M_PI
      else gameState.yaw
    pitch :=
      if gameState.pitch < -L.M_PI / 2 then -L.M_PI / 2
      else if gameState.pitch > L.M_PI / 2 then L.M_PI / 2
      else gameState.pitch }

/-- Lines 156-162 of `gameStateUpdate`: the free-fly displacement accumulated from the keys
held, before scaling by the time step. -/
def noclipDisplacement (keys : Keys) (forward right : VECTOR K) : VECTOR K :=
  let displacement : VECTOR K := VectorReplicate 0
  let displacement := if keys.SDL_SCANCODE_W then VectorAdd displacement forward
    else displacement
  let displacement := if keys.SDL_SCANCODE_A then VectorSubtract displacement right
    else displacement
  let displacement := if keys.SDL_SCANCODE_S then VectorSubtract displacement forward
    else displacement
  let displacement := if keys.SDL_SCANCODE_D then VectorAdd displacement right
    else displacement
  let displacement := if keys.SDL_SCANCODE_SPACE then
      VectorAdd displacement (VectorSet 0 MOVEMENT_SPEED 0 0)
    else displacement
  let displacement := if keys.SDL_SCANCODE_LSHIFT then
      VectorSubtract displacement (VectorSet 0 MOVEMENT_SPEED 0 0)
    else displacement
  displacement

/-- Lines 151-166 of `gameStateUpdate`: free flight in noclip mode, otherwise the velocity of
the player entity; `dt` is the scaled time. -/
def handleMovement (L : MathLib K) (keys : Keys) (gameState : GameState K) (dt : K) :
    GameState K :=
  let forward : VECTOR K :=
    VectorSet (-MOVEMENT_SPEED * L.sin gameState.yaw) 0 (-MOVEMENT_SPEED * L.cos gameState.yaw) 0
  let up : VECTOR K := VectorSet 0 1 0 0
  let right := VectorCross forward up
  if gameState.noclip ≠ 0 then
    { gameState with
      position := VectorAdd gameState.position
        (VectorMultiply (VectorReplicate dt) (noclipDisplacement keys forward right)) }
  else
    { gameState with
      manager :=
        { gameState.manager with
          velocities := Function.update gameState.manager.velocities gameState.player
            (if keys.SDL_SCANCODE_W then forward else VectorReplicate 0) } }

/-- The function `gameStateUpdate` (gameState.c, lines 113-173).  The keyboard state and the
relative mouse state, which the C code obtains from SDL, are arguments. -/
def gameStateUpdate (cfg : Config) (L : MathLib K) (keys : Keys) (mouse : Int × Int)
    (gameState : GameState K) (dt : K) : GameState K :=
  let scale := timeScale gameState
  let gameState := deathFreeze gameState dt
  let dt := dt * scale
  let gameState := handleInput L keys mouse gameState dt
  let gameState := wrapAngles L gameState
  let gameState := handleMovement L keys gameState dt
  let gameState := processEnemies cfg L.sqrt gameState dt
  let gameState :=
    if ¬ (gameState.playerData.dead ≠ 0) then processCollisions cfg L.sqrt gameState dt
    else gameState
  processVelocities cfg gameState dt

/-- Component masks as consecutive bits and a capacity of three entities, used in the
examples. -/
def exampleConfig : Config := ⟨3, 1, 2, 4, 8, 16⟩

/-- The state built by `gameStateInitialize` (gameState.c, lines 226-228, 238-247, 287-291)
with no enemy spawned: the player is entity 0, the ground entity 1. -/
def exampleState : GameState K where
  manager :=
    { entityMasks := fun i => if i = 0 then 1 ||| 2 ||| 4 else if i = 1 then 1 ||| 8 else 0
      positions := fun _ => VectorSet 0 0 0 1
      velocities := fun _ => VectorReplicate 0
      colliders := fun i => if i = 0 then 2 / 10 else 0 }
  player := 0
  playerData := { turn := 0, dead := 0, deadTimer := 0 }
  position := VectorSet 0 0 0 1
  yaw := 0
  pitch := 0
  noclip := 0

/-- A state of the table in which the player is entity 1 and an enemy is entity 0: the enemy
(radius 0.5) stands one unit away along X and moves toward the player (radius 0.2) at the
speed 1/100 that `processEnemies` gives it. -/
def playerOneState : GameState K where
  manager :=
    { entityMasks := fun i =>
        if i = 0 then 1 ||| 8 ||| 2 ||| 4 ||| 16 else if i = 1 then 1 ||| 2 ||| 4 else 0
      positions := fun i => if i = 0 then VectorSet 1 0 0 1 else VectorSet 0 0 0 1
      velocities := fun i => if i = 0 then VectorSet (-(1 / 100)) 0 0 0 else VectorReplicate 0
      colliders := fun i => if i = 0 then 5 / 10 else 2 / 10 }
  player := 1
  playerData := { turn := 0, dead := 0, deadTimer := 0 }
  position := VectorSet 0 0 0 1
  yaw := 0
  pitch := 0
  noclip := 0

/-- The state of `gameStateUpdate` after line 168, before the collision check: death freeze,
input, angle wrap, movement and enemy steering have run. -/
def preCollision (cfg : Config) (L : MathLib K) (keys : Keys) (mouse : Int × Int)
    (gameState : GameState K) (dt : K) : GameState K :=
  processEnemies cfg L.sqrt
    (handleMovement L keys
      (wrapAngles L
        (handleInput L keys mouse (deathFreeze gameState dt) (dt * timeScale gameState)))
      (dt * timeScale gameState))
    (dt * timeScale gameState)

/-- Lines 169-171 of `gameStateUpdate`: the collision check, skipped for a dead player. -/
def collisionStep (cfg : Config) (L : MathLib K) (gameState : GameState K) (dt : K) :
    GameState K :=
  if ¬ (gameState.playerData.dead ≠ 0) then processCollisions cfg L.sqrt gameState dt
  else gameState

/-! ## The frame loop -/

/-- What the host supplies for one frame: the mode flag chosen by the runtime toggle, the
elapsed time, the keyboard state and the relative mouse state. -/
structure Frame (K : Type) where
  noclip : Int
  dt : K
  keys : Keys
  mouse : Int × Int

/-- Modelled from the spec: the host frame loop is not part of the sources; per frame it
selects the mode and calls the simulation step once with the elapsed time. -/
def runFrame (cfg : Config) (L : MathLib K) (gameState : GameState K) (f : Frame K) :
    GameState K :=
  gameStateUpdate cfg L f.keys f.mouse { gameState with noclip := f.noclip } f.dt

/-- Modelled from the spec: the host frame loop is not part of the sources; a finite sequence
of frames, applied in order. -/
def runFrames (cfg : Config) (L : MathLib K) (gameState : GameState K) (fs : List (Frame K)) :
    GameState K :=
  fs.foldl (runFrame cfg L) gameState

/-- The state built by `gameStateInitialize` (gameState.c, lines 226-228, 238-257, 287-291)
with one enemy, spawned as entity 2 at the position of the player. -/
def crowdedState : GameState K where
  manager :=
    { entityMasks := fun i =>
        if i = 0 then 1 ||| 2 ||| 4 else if i = 1 then 1 ||| 8
        else if i = 2 then 1 ||| 8 ||| 2 ||| 4 ||| 16 else 0
      positions := fun _ => VectorSet 0 0 0 1
      velocities := fun _ => VectorReplicate 0
      colliders := fun i => if i = 0 then 2 / 10 else if i = 2 then 5 / 10 else 0 }
  player := 0
  playerData := { turn := 0, dead := 0, deadTimer := 0 }
  position := VectorSet 0 0 0 1
  yaw := 0
  pitch := 0
  noclip := 0

/-- The example state with the turn accumulator at 100. -/
def turnedState : GameState K :=
  { (exampleState : GameState K) with playerData := { turn := 100, dead := 0, deadTimer := 0 } }

/-- A Playing-mode frame of 16.67 ms with the given keys and mouse delta. -/
def playingFrame (keys : Keys) (mouse : Int × Int) : Frame K := ⟨0, 1667 / 100, keys, mouse⟩

/-- Component-wise negation of a 4-vector, used to state properties of the detector. -/
def VectorNegate (a : VECTOR K) : VECTOR K := ⟨-a.x, -a.y, -a.z, -a.w⟩

/-- The assignment `gameState->playerData.dead = 1`. -/
def setDead (gameState : GameState K) : GameState K :=
  { gameState with playerData := { gameState.playerData with dead := 1 } }

/-- The condition under which the inner loop of `processCollisions` flags the pair `(i, j)`:
entity `j` holds position, velocity and collider, and the detector answers true for the
displacement `dt * (velocity_i - velocity_j)`. -/
def pairCollides (cfg : Config) (sqrt : K → K) (dt : K) (gameState : GameState K)
    (i j : Nat) : Prop :=
  hasMask (gameState.manager.entityMasks j)
    (cfg.POSITION_COMPONENT_MASK ||| cfg.VELOCITY_COMPONENT_MASK |||
      cfg.COLLIDER_COMPONENT_MASK) ∧
  isSphereCollision sqrt (gameState.manager.positions i) (gameState.manager.positions j)
    (gameState.manager.colliders i) (gameState.manager.colliders j)
    (VectorMultiply (VectorReplicate dt)
      (VectorSubtract (gameState.manager.velocities i) (gameState.manager.velocities j))) = true

instance (cfg : Config) (sqrt : K → K) (dt : K) (gameState : GameState K) (i j : Nat) :
    Decidable (pairCollides cfg sqrt dt gameState i j) := by
  unfold pairCollides; infer_instance

end Defs

/-! ## Lemmas on the vector utility -/

section VectorLemmas

variable {K : Type} [LinearOrderedField K]

theorem vectorEqual_zero_iff (m : VECTOR K) :
    (VectorEqual m (VectorReplicate 0) &&& 0x7 = 0x7) ↔ (m.x = 0 ∧ m.y = 0 ∧ m.z = 0) := by
  unfold VectorEqual VectorReplicate
  by_cases hx : m.x = 0 <;> by_cases hy : m.y = 0 <;> by_cases hz : m.z = 0 <;>
    by_cases hw : m.w = 0 <;> simp [hx, hy, hz, hw] <;> decide

theorem vector3Dot_negate (a b : VECTOR K) :
    Vector3Dot (VectorNegate a) (VectorNegate b) = Vector3Dot a b := by
  simp [Vector3Dot, VectorNegate]

theorem vector4Dot_negate (a b : VECTOR K) :
    Vector4Dot (VectorNegate a) (VectorNegate b) = Vector4Dot a b := by
  simp [Vector4Dot, VectorNegate]

theorem vector3Length_negate (sqrt : K → K) (a : VECTOR K) :
    Vector3Length sqrt (VectorNegate a) = Vector3Length sqrt a := by
  simp [Vector3Length, vector3Dot_negate]

theorem vectorSubtract_swap (a b : VECTOR K) :
    VectorSubtract a b = VectorNegate (VectorSubtract b a) := by
  simp [VectorSubtract, VectorNegate]

theorem vector4Normalize_negate (sqrt : K → K) (a : VECTOR K) :
    Vector4Normalize sqrt (VectorNegate a) = VectorNegate (Vector4Normalize sqrt a) := by
  rw [Vector4Normalize, Vector4Length, vector4Dot_negate]
  simp [Vector4Normalize, Vector4Length, VectorDivide, VectorReplicate, VectorNegate, neg_div]

theorem vectorEqual_zero_negate (m : VECTOR K) :
    (VectorEqual (VectorNegate m) (VectorReplicate 0) &&& 0x7 = 0x7) ↔
      (VectorEqual m (VectorReplicate 0) &&& 0x7 = 0x7) := by
  rw [vectorEqual_zero_iff, vectorEqual_zero_iff]
  simp [VectorNegate]

end VectorLemmas

/-! ## Properties of the collision detector -/

section Collision

variable {K : Type} [LinearOrderedField K]

/-- C4: `isSphereCollision` gives the same result when the two spheres are swapped and the
displacement is negated. -/
theorem isSphereCollision_swap_negate (sqrt : K → K) (pos0 pos1 : VECTOR K) (r0 r1 : K)
    (m : VECTOR K) :
    isSphereCollision sqrt pos0 pos1 r0 r1 m =
      isSphereCollision sqrt pos1 pos0 r1 r0 (VectorNegate m) := by
  have hn : (if VectorEqual (VectorNegate m) (VectorReplicate 0) &&& 0x7 = 0x7
        then VectorNegate m else Vector4Normalize sqrt (VectorNegate m)) =
      VectorNegate (if VectorEqual m (VectorReplicate 0) &&& 0x7 = 0x7
        then m else Vector4Normalize sqrt m) := by
    by_cases h : VectorEqual m (VectorReplicate 0) &&& 0x7 = 0x7
    · rw [if_pos ((vectorEqual_zero_negate m).2 h), if_pos h]
    · rw [if_neg (fun h2 => h ((vectorEqual_zero_negate m).1 h2)), if_neg h,
        vector4Normalize_negate]
  unfold isSphereCollision
  simp only [hn, vectorSubtract_swap pos0 pos1, vector3Dot_negate, vector3Length_negate,
    add_comm r1 r0]

end Collision

/-! ## Integration -/

section Integration

variable {K : Type} [LinearOrderedField K]

/-- The first `n` iterations of the loop of `processVelocities`. -/
theorem processVelocities_fold (cfg : Config) (dt : K) (M : EntityManager K) (n : Nat) :
    ((List.range n).foldl (processVelocitiesBody cfg dt) M).entityMasks = M.entityMasks ∧
    ((List.range n).foldl (processVelocitiesBody cfg dt) M).velocities = M.velocities ∧
    ((List.range n).foldl (processVelocitiesBody cfg dt) M).colliders = M.colliders ∧
    ∀ i, ((List.range n).foldl (processVelocitiesBody cfg dt) M).positions i =
      if i < n ∧ hasMask (M.entityMasks i)
          (cfg.POSITION_COMPONENT_MASK ||| cfg.VELOCITY_COMPONENT_MASK) then
        VectorAdd (M.positions i) (VectorMultiply (VectorReplicate dt) (M.velocities i))
      else M.positions i := by
  induction n with
  | zero => simp
  | succ n ih =>
    obtain ⟨hm, hv, hc, hp⟩ := ih
    rw [List.range_succ, List.foldl_append]
    simp only [List.foldl_cons, List.foldl_nil]
    generalize (List.range n).foldl (processVelocitiesBody cfg dt) M = M1 at hm hv hc hp
    unfold processVelocitiesBody
    simp only []
    by_cases hmask : hasMask (M1.entityMasks n)
        (cfg.POSITION_COMPONENT_MASK ||| cfg.VELOCITY_COMPONENT_MASK)
    · rw [if_pos hmask]
      refine ⟨hm, hv, hc, ?_⟩
      intro i
      simp only []
      by_cases hin : i = n
      · subst hin
        rw [Function.update_same, hp, hv]
        rw [hm] at hmask
        simp [hmask]
      · rw [Function.update_noteq hin, hp]
        have : (i < n + 1) ↔ (i < n) := by omega
        simp only [this]
    · rw [if_neg hmask]
      refine ⟨hm, hv, hc, ?_⟩
      intro i
      rw [hp]
      by_cases hin : i = n
      · subst hin
        rw [hm] at hmask
        simp [hmask]
      · have : (i < n + 1) ↔ (i < n) := by omega
        simp only [this]

theorem processVelocities_positions (cfg : Config) (gameState : GameState K) (dt : K) (i : Nat) :
    (processVelocities cfg gameState dt).manager.positions i =
      if i < cfg.MAX_ENTITIES ∧ hasMask (gameState.manager.entityMasks i)
          (cfg.POSITION_COMPONENT_MASK ||| cfg.VELOCITY_COMPONENT_MASK) then
        VectorAdd (gameState.manager.positions i)
          (VectorMultiply (VectorReplicate dt) (gameState.manager.velocities i))
      else gameState.manager.positions i :=
  (processVelocities_fold cfg dt gameState.manager cfg.MAX_ENTITIES).2.2.2 i

/-- C9: `processVelocities` integrates exactly the entities that hold both position and
velocity: such an entity below `MAX_ENTITIES` moves by `dt * velocity`, every other position
is unchanged, and all velocities and masks are unchanged. -/
theorem processVelocities_spec (cfg : Config) (gameState : GameState K) (dt : K) :
    (∀ i, (processVelocities cfg gameState dt).manager.positions i =
      if i < cfg.MAX_ENTITIES ∧ hasMask (gameState.manager.entityMasks i)
          (cfg.POSITION_COMPONENT_MASK ||| cfg.VELOCITY_COMPONENT_MASK) then
        VectorAdd (gameState.manager.positions i)
          (VectorMultiply (VectorReplicate dt) (gameState.manager.velocities i))
      else gameState.manager.positions i) ∧
    (processVelocities cfg gameState dt).manager.velocities = gameState.manager.velocities ∧
    (processVelocities cfg gameState dt).manager.entityMasks =
      gameState.manager.entityMasks := by
  obtain ⟨hm, hv, _, hp⟩ := processVelocities_fold cfg dt gameState.manager cfg.MAX_ENTITIES
  exact ⟨hp, hv, hm⟩

end Integration

/-! ## Stages of the simulation step -/

section Stages

variable {K : Type} [LinearOrderedField K]

theorem processEnemies_fold (cfg : Config) (sqrt : K → K) (playerPos : VECTOR K)
    (l : List Nat) (M : EntityManager K) :
    (l.foldl (processEnemiesBody cfg sqrt playerPos) M).entityMasks = M.entityMasks ∧
    (l.foldl (processEnemiesBody cfg sqrt playerPos) M).positions = M.positions ∧
    (l.foldl (processEnemiesBody cfg sqrt playerPos) M).colliders = M.colliders := by
  induction l generalizing M with
  | nil => simp
  | cons i l ih =>
    rw [List.foldl_cons]
    obtain ⟨h1, h2, h3⟩ := ih (processEnemiesBody cfg sqrt playerPos M i)
    rw [h1, h2, h3]
    unfold processEnemiesBody
    simp only []
    split_ifs <;> exact ⟨rfl, rfl, rfl⟩

theorem processCollisionsPair_eq (cfg : Config) (sqrt : K → K) (dt : K) (i : Nat)
    (gs : GameState K) (j : Nat) :
    processCollisionsPair cfg sqrt dt i gs j =
      if pairCollides cfg sqrt dt gs i j then setDead gs else gs := by
  unfold processCollisionsPair pairCollides
  simp only []
  by_cases hm : hasMask (gs.manager.entityMasks j)
      (cfg.POSITION_COMPONENT_MASK ||| cfg.VELOCITY_COMPONENT_MASK |||
        cfg.COLLIDER_COMPONENT_MASK)
  · by_cases hc : isSphereCollision sqrt (gs.manager.positions i) (gs.manager.positions j)
        (gs.manager.colliders i) (gs.manager.colliders j)
        (VectorMultiply (VectorReplicate dt)
          (VectorSubtract (gs.manager.velocities i) (gs.manager.velocities j))) = true
    · simp [hm, hc, setDead]
    · simp [hm, hc]
  · simp [hm]

theorem processCollisions_inner_setDead (cfg : Config) (sqrt : K → K) (dt : K) (i : Nat)
    (l : List Nat) (gs : GameState K) :
    l.foldl (processCollisionsPair cfg sqrt dt i) (setDead gs) = setDead gs := by
  induction l with
  | nil => rfl
  | cons j l ih =>
    rw [List.foldl_cons, processCollisionsPair_eq]
    split_ifs
    · exact ih
    · exact ih

theorem processCollisions_inner (cfg : Config) (sqrt : K → K) (dt : K) (i : Nat)
    (l : List Nat) (gs : GameState K) :
    ((∃ j ∈ l, pairCollides cfg sqrt dt gs i j) →
      l.foldl (processCollisionsPair cfg sqrt dt i) gs = setDead gs) ∧
    ((¬ ∃ j ∈ l, pairCollides cfg sqrt dt gs i j) →
      l.foldl (processCollisionsPair cfg sqrt dt i) gs = gs) := by
  induction l with
  | nil => simp
  | cons j l ih =>
    rw [List.foldl_cons, processCollisionsPair_eq]
    by_cases hj : pairCollides cfg sqrt dt gs i j
    · rw [if_pos hj, processCollisions_inner_setDead]
      exact ⟨fun _ => rfl, fun hn => absurd ⟨j, List.mem_cons_self j l, hj⟩ hn⟩
    · rw [if_neg hj]
      constructor
      · rintro ⟨k, hk, hkc⟩
        rcases List.mem_cons.1 hk with rfl | hk
        · exact absurd hkc hj
        · exact ih.1 ⟨k, hk, hkc⟩
      · intro hn
        exact ih.2 (fun ⟨k, hk, hkc⟩ => hn ⟨k, List.mem_cons_of_mem j hk, hkc⟩)

theorem processCollisionsBody_cases (cfg : Config) (sqrt : K → K) (dt : K)
    (gs : GameState K) (i : Nat) :
    processCollisionsBody cfg sqrt dt gs i = gs ∨
      processCollisionsBody cfg sqrt dt gs i = setDead gs := by
  unfold processCollisionsBody
  simp only []
  split_ifs
  · by_cases h : ∃ j ∈ List.range' (i + 1) (cfg.MAX_ENTITIES - (i + 1)),
        pairCollides cfg sqrt dt gs i j
    · exact Or.inr ((processCollisions_inner cfg sqrt dt i _ gs).1 h)
    · exact Or.inl ((processCollisions_inner cfg sqrt dt i _ gs).2 h)
  · exact Or.inl rfl

theorem processCollisionsBody_player (cfg : Config) (sqrt : K → K) (dt : K)
    (gs : GameState K) (i : Nat) :
    (processCollisionsBody cfg sqrt dt gs i).player = gs.player := by
  rcases processCollisionsBody_cases cfg sqrt dt gs i with h | h <;> rw [h]
  rfl

/-- The outer loop of `processCollisions` runs its body only for index 0, and only when the
player is entity 0. -/
theorem processCollisions_eq (cfg : Config) (sqrt : K → K) (gs : GameState K) (dt : K) :
    processCollisions cfg sqrt gs dt =
      if 0 < cfg.MAX_ENTITIES ∧ 0 = gs.player then processCollisionsBody cfg sqrt dt gs 0
      else gs := by
  unfold processCollisions
  rw [processCollisionsLoop]
  by_cases h : 0 < cfg.MAX_ENTITIES ∧ 0 = gs.player
  · rw [if_pos h, if_pos h, processCollisionsLoop, if_neg]
    rw [processCollisionsBody_player]
    omega
  · rw [if_neg h, if_neg h]

theorem processCollisions_cases (cfg : Config) (sqrt : K → K) (gs : GameState K) (dt : K) :
    processCollisions cfg sqrt gs dt = gs ∨ processCollisions cfg sqrt gs dt = setDead gs := by
  rw [processCollisions_eq]
  split_ifs
  · exact processCollisionsBody_cases cfg sqrt dt gs 0
  · exact Or.inl rfl

/-- When the player is entity 0 and holds position, velocity and collider, `processCollisions`
flags death exactly when some other entity of the table collides with the player. -/
theorem processCollisions_player_zero (cfg : Config) (sqrt : K → K) (gs : GameState K) (dt : K)
    (hp : gs.player = 0) (hmax : 0 < cfg.MAX_ENTITIES) (halive : gs.playerData.dead = 0)
    (hmask : hasMask (gs.manager.entityMasks 0)
      (cfg.POSITION_COMPONENT_MASK ||| cfg.VELOCITY_COMPONENT_MASK |||
        cfg.COLLIDER_COMPONENT_MASK)) :
    (processCollisions cfg sqrt gs dt).playerData.dead = 1 ↔
      ∃ j, j ≠ 0 ∧ j < cfg.MAX_ENTITIES ∧ pairCollides cfg sqrt dt gs 0 j := by
  rw [processCollisions_eq, if_pos ⟨hmax, hp.symm⟩]
  unfold processCollisionsBody
  simp only []
  rw [if_pos hmask]
  by_cases h : ∃ j ∈ List.range' (0 + 1) (cfg.MAX_ENTITIES - (0 + 1)),
      pairCollides cfg sqrt dt gs 0 j
  · rw [(processCollisions_inner cfg sqrt dt 0 _ gs).1 h]
    obtain ⟨j, hj, hc⟩ := h
    have := List.mem_range'_1.1 hj
    exact ⟨fun _ => ⟨j, by omega, by omega, hc⟩, fun _ => rfl⟩
  · rw [(processCollisions_inner cfg sqrt dt 0 _ gs).2 h]
    constructor
    · intro hd
      rw [halive] at hd
      exact absurd hd (by decide)
    · rintro ⟨j, hj0, hjm, hc⟩
      exact absurd ⟨j, List.mem_range'_1.2 ⟨by omega, by omega⟩, hc⟩ h

/-! ### Fields left alone by each stage -/

theorem deathFreeze_fields (gs : GameState K) (dt : K) :
    (deathFreeze gs dt).manager = gs.manager ∧ (deathFreeze gs dt).player = gs.player ∧
    (deathFreeze gs dt).position = gs.position ∧ (deathFreeze gs dt).yaw = gs.yaw ∧
    (deathFreeze gs dt).pitch = gs.pitch ∧ (deathFreeze gs dt).noclip = gs.noclip ∧
    (deathFreeze gs dt).playerData.turn = gs.playerData.turn ∧
    (deathFreeze gs dt).playerData.dead = gs.playerData.dead ∧
    (deathFreeze gs dt).playerData.deadTimer =
      if gs.playerData.dead ≠ 0 then gs.playerData.deadTimer + dt
      else gs.playerData.deadTimer := by
  unfold deathFreeze
  split_ifs <;> exact ⟨rfl, rfl, rfl, rfl, rfl, rfl, rfl, rfl, rfl⟩

theorem handleInput_fields (L : MathLib K) (keys : Keys) (mouse : Int × Int)
    (gs : GameState K) (dt : K) :
    (handleInput L keys mouse gs dt).manager = gs.manager ∧
    (handleInput L keys mouse gs dt).player = gs.player ∧
    (handleInput L keys mouse gs dt).position = gs.position ∧
    (handleInput L keys mouse gs dt).noclip = gs.noclip ∧
    (handleInput L keys mouse gs dt).playerData.dead = gs.playerData.dead ∧
    (handleInput L keys mouse gs dt).playerData.deadTimer = gs.playerData.deadTimer ∧
    (handleInput L keys mouse gs dt).playerData.turn =
      (if gs.noclip ≠ 0 then gs.playerData.turn
       else handleTurning keys gs.playerData.turn dt) ∧
    (handleInput L keys mouse gs dt).yaw =
      (if gs.noclip ≠ 0 then gs.yaw - (mouse.1 : K) * MOUSE_SENSITIVITY
       else gs.yaw -
        6 / 1000 * getTurningFactor L (handleTurning keys gs.playerData.turn dt) * dt) := by
  unfold handleInput
  split_ifs <;> exact ⟨rfl, rfl, rfl, rfl, rfl, rfl, rfl, rfl⟩

theorem vectorAdd_zero_scaled (p d : VECTOR K) :
    VectorAdd p (VectorMultiply (VectorReplicate 0) d) = p := by
  cases p
  simp [VectorAdd, VectorMultiply, VectorReplicate]

theorem handleMovement_fields (L : MathLib K) (keys : Keys) (gs : GameState K) (dt : K) :
    (handleMovement L keys gs dt).player = gs.player ∧
    (handleMovement L keys gs dt).playerData = gs.playerData ∧
    (handleMovement L keys gs dt).yaw = gs.yaw ∧
    (handleMovement L keys gs dt).pitch = gs.pitch ∧
    (handleMovement L keys gs dt).noclip = gs.noclip ∧
    (handleMovement L keys gs dt).manager.entityMasks = gs.manager.entityMasks ∧
    (handleMovement L keys gs dt).manager.positions = gs.manager.positions ∧
    (handleMovement L keys gs dt).manager.colliders = gs.manager.colliders := by
  unfold handleMovement
  simp only []
  by_cases h : gs.noclip ≠ 0
  · rw [if_pos h]
    exact ⟨rfl, rfl, rfl, rfl, rfl, rfl, rfl, rfl⟩
  · rw [if_neg h]
    exact ⟨rfl, rfl, rfl, rfl, rfl, rfl, rfl, rfl⟩

theorem handleMovement_position_zero (L : MathLib K) (keys : Keys) (gs : GameState K) :
    (handleMovement L keys gs 0).position = gs.position := by
  unfold handleMovement
  simp only []
  by_cases h : gs.noclip ≠ 0
  · rw [if_pos h]
    exact vectorAdd_zero_scaled _ _
  · rw [if_neg h]

/-- What the stages before the collision check leave in each field. -/
theorem preCollision_fields (cfg : Config) (L : MathLib K) (keys : Keys) (mouse : Int × Int)
    (gs : GameState K) (dt : K) :
    (preCollision cfg L keys mouse gs dt).player = gs.player ∧
    (preCollision cfg L keys mouse gs dt).noclip = gs.noclip ∧
    (preCollision cfg L keys mouse gs dt).playerData.dead = gs.playerData.dead ∧
    (preCollision cfg L keys mouse gs dt).playerData.deadTimer =
      (if gs.playerData.dead ≠ 0 then gs.playerData.deadTimer + dt
       else gs.playerData.deadTimer) ∧
    (preCollision cfg L keys mouse gs dt).playerData.turn =
      (if gs.noclip ≠ 0 then gs.playerData.turn
       else handleTurning keys gs.playerData.turn (dt * timeScale gs)) ∧
    (preCollision cfg L keys mouse gs dt).manager.entityMasks = gs.manager.entityMasks ∧
    (preCollision cfg L keys mouse gs dt).manager.positions = gs.manager.positions ∧
    (preCollision cfg L keys mouse gs dt).manager.colliders = gs.manager.colliders := by
  obtain ⟨d1, d2, _, _, _, d6, d7, d8, d9⟩ := deathFreeze_fields gs dt
  obtain ⟨i1, i2, _, i4, i5, i6, i7, _⟩ :=
    handleInput_fields L keys mouse (deathFreeze gs dt) (dt * timeScale gs)
  obtain ⟨m1, m2, _, _, m5, m6, m7, m8⟩ := handleMovement_fields L keys
    (wrapAngles L (handleInput L keys mouse (deathFreeze gs dt) (dt * timeScale gs)))
    (dt * timeScale gs)
  obtain ⟨e1, e2, e3⟩ := processEnemies_fold cfg L.sqrt
    ((handleMovement L keys
      (wrapAngles L (handleInput L keys mouse (deathFreeze gs dt) (dt * timeScale gs)))
      (dt * timeScale gs)).manager.positions
      (handleMovement L keys
        (wrapAngles L (handleInput L keys mouse (deathFreeze gs dt) (dt * timeScale gs)))
        (dt * timeScale gs)).player)
    (List.range cfg.MAX_ENTITIES)
    (handleMovement L keys
      (wrapAngles L (handleInput L keys mouse (deathFreeze gs dt) (dt * timeScale gs)))
      (dt * timeScale gs)).manager
  unfold preCollision processEnemies
  simp only []
  refine ⟨?_, ?_, ?_, ?_, ?_, ?_, ?_, ?_⟩
  · rw [m1]; show (handleInput L keys mouse (deathFreeze gs dt) (dt * timeScale gs)).player = _
    rw [i2, d2]
  · rw [m5]; show (handleInput L keys mouse (deathFreeze gs dt) (dt * timeScale gs)).noclip = _
    rw [i4, d6]
  · rw [m2]
    show (handleInput L keys mouse (deathFreeze gs dt) (dt * timeScale gs)).playerData.dead = _
    rw [i5, d8]
  · rw [m2]
    show (handleInput L keys mouse (deathFreeze gs dt)
      (dt * timeScale gs)).playerData.deadTimer = _
    rw [i6, d9]
  · rw [m2]
    show (handleInput L keys mouse (deathFreeze gs dt) (dt * timeScale gs)).playerData.turn = _
    rw [i7, d6, d7]
  · rw [e1, m6]
    show (handleInput L keys mouse (deathFreeze gs dt)
      (dt * timeScale gs)).manager.entityMasks = _
    rw [i1, d1]
  · rw [e2, m7]
    show (handleInput L keys mouse (deathFreeze gs dt)
      (dt * timeScale gs)).manager.positions = _
    rw [i1, d1]
  · rw [e3, m8]
    show (handleInput L keys mouse (deathFreeze gs dt)
      (dt * timeScale gs)).manager.colliders = _
    rw [i1, d1]

theorem preCollision_position_of_dead (cfg : Config) (L : MathLib K) (keys : Keys)
    (mouse : Int × Int) (gs : GameState K) (dt : K) (h : gs.playerData.dead ≠ 0) :
    (preCollision cfg L keys mouse gs dt).position = gs.position := by
  have hs : timeScale gs = 0 := by unfold timeScale; rw [if_pos h]
  unfold preCollision processEnemies
  simp only [hs, mul_zero]
  rw [handleMovement_position_zero]
  show (handleInput L keys mouse (deathFreeze gs dt) 0).position = _
  rw [(handleInput_fields L keys mouse _ _).2.2.1, (deathFreeze_fields gs dt).2.2.1]

theorem collisionStep_cases (cfg : Config) (L : MathLib K) (gs : GameState K) (dt : K) :
    collisionStep cfg L gs dt = gs ∨ collisionStep cfg L gs dt = setDead gs := by
  unfold collisionStep
  split_ifs
  · exact Or.inl rfl
  · exact processCollisions_cases cfg L.sqrt gs dt

theorem collisionStep_of_dead (cfg : Config) (L : MathLib K) (gs : GameState K) (dt : K)
    (h : gs.playerData.dead ≠ 0) : collisionStep cfg L gs dt = gs := by
  unfold collisionStep
  rw [if_neg (not_not.2 h)]

/-- The simulation step is the integration of the state left by the collision check. -/
theorem gameStateUpdate_eq (cfg : Config) (L : MathLib K) (keys : Keys) (mouse : Int × Int)
    (gs : GameState K) (dt : K) :
    gameStateUpdate cfg L keys mouse gs dt =
      processVelocities cfg
        (collisionStep cfg L (preCollision cfg L keys mouse gs dt) (dt * timeScale gs))
        (dt * timeScale gs) := rfl

/-- Fields of the state after the simulation step that the collision check and the integration
leave as the earlier stages set them. -/
theorem gameStateUpdate_fields (cfg : Config) (L : MathLib K) (keys : Keys)
    (mouse : Int × Int) (gs : GameState K) (dt : K) :
    (gameStateUpdate cfg L keys mouse gs dt).playerData.turn =
      (preCollision cfg L keys mouse gs dt).playerData.turn ∧
    (gameStateUpdate cfg L keys mouse gs dt).playerData.deadTimer =
      (preCollision cfg L keys mouse gs dt).playerData.deadTimer ∧
    (gameStateUpdate cfg L keys mouse gs dt).yaw = (preCollision cfg L keys mouse gs dt).yaw ∧
    (gameStateUpdate cfg L keys mouse gs dt).position =
      (preCollision cfg L keys mouse gs dt).position ∧
    (gameStateUpdate cfg L keys mouse gs dt).manager.entityMasks =
      (preCollision cfg L keys mouse gs dt).manager.entityMasks := by
  rw [gameStateUpdate_eq]
  have hm := (processVelocities_fold cfg (dt * timeScale gs)
    (collisionStep cfg L (preCollision cfg L keys mouse gs dt) (dt * timeScale gs)).manager
    cfg.MAX_ENTITIES).1
  unfold processVelocities
  simp only [hm]
  rcases collisionStep_cases cfg L (preCollision cfg L keys mouse gs dt) (dt * timeScale gs)
    with h | h <;> rw [h] <;> exact ⟨rfl, rfl, rfl, rfl, rfl⟩

theorem gameStateUpdate_turn (cfg : Config) (L : MathLib K) (keys : Keys)
    (mouse : Int × Int) (gs : GameState K) (dt : K) :
    (gameStateUpdate cfg L keys mouse gs dt).playerData.turn =
      if gs.noclip ≠ 0 then gs.playerData.turn
      else handleTurning keys gs.playerData.turn (dt * timeScale gs) := by
  rw [(gameStateUpdate_fields cfg L keys mouse gs dt).1]
  exact (preCollision_fields cfg L keys mouse gs dt).2.2.2.2.1

theorem gameStateUpdate_dead_of_dead (cfg : Config) (L : MathLib K) (keys : Keys)
    (mouse : Int × Int) (gs : GameState K) (dt : K) (h : gs.playerData.dead ≠ 0) :
    (gameStateUpdate cfg L keys mouse gs dt).playerData.dead = gs.playerData.dead := by
  have hd := (preCollision_fields cfg L keys mouse gs dt).2.2.1
  rw [gameStateUpdate_eq, collisionStep_of_dead _ _ _ _ (by rw [hd]; exact h)]
  exact hd

end Stages

/-! ## Death -/

section Death

variable {K : Type} [LinearOrderedField K]

theorem runFrames_dead_of_dead (cfg : Config) (L : MathLib K) (fs : List (Frame K))
    (gs : GameState K) (h : gs.playerData.dead = 1) :
    (runFrames cfg L gs fs).playerData.dead = 1 := by
  induction fs generalizing gs with
  | nil => exact h
  | cons f fs ih =>
    unfold runFrames
    rw [List.foldl_cons]
    apply ih
    unfold runFrame
    rw [gameStateUpdate_dead_of_dead]
    · exact h
    · show gs.playerData.dead ≠ 0
      rw [h]; decide

/-- C7: death is irreversible: from a state with `dead = 1`, one `gameStateUpdate` with any
elapsed time, keys, mouse delta and mode leaves `dead = 1`, and so does any finite sequence
of frames. -/
theorem dead_irreversible (cfg : Config) (L : MathLib K) (gs : GameState K)
    (h : gs.playerData.dead = 1) :
    (∀ (keys : Keys) (mouse : Int × Int) (dt : K),
      (gameStateUpdate cfg L keys mouse gs dt).playerData.dead = 1) ∧
    (∀ fs : List (Frame K), (runFrames cfg L gs fs).playerData.dead = 1) := by
  refine ⟨fun keys mouse dt => ?_, fun fs => runFrames_dead_of_dead cfg L fs gs h⟩
  rw [gameStateUpdate_dead_of_dead cfg L keys mouse gs dt (by rw [h]; decide)]
  exact h

/-- C7 at a concrete state: the initial table after the player has died. -/
theorem dead_irreversible_witness :
    (setDead (exampleState : GameState ℝ)).playerData.dead = 1 ∧
    ((∀ (keys : Keys) (mouse : Int × Int) (dt : ℝ),
      (gameStateUpdate exampleConfig ⟨Real.sqrt, Real.sin, Real.cos, Real.pi⟩ keys mouse
        (setDead exampleState) dt).playerData.dead = 1) ∧
    (∀ fs : List (Frame ℝ),
      (runFrames exampleConfig ⟨Real.sqrt, Real.sin, Real.cos, Real.pi⟩
        (setDead exampleState) fs).playerData.dead = 1)) :=
  ⟨rfl, dead_irreversible exampleConfig ⟨Real.sqrt, Real.sin, Real.cos, Real.pi⟩
    (setDead exampleState) rfl⟩

/-- C8: death freeze: from a state with `dead = 1`, `gameStateUpdate` leaves the position of
every entity and the free-fly position unchanged and adds the unscaled `dt` to `deadTimer`. -/
theorem death_freeze (cfg : Config) (L : MathLib K) (keys : Keys) (mouse : Int × Int)
    (gs : GameState K) (dt : K) (h : gs.playerData.dead = 1) :
    (∀ i, (gameStateUpdate cfg L keys mouse gs dt).manager.positions i =
      gs.manager.positions i) ∧
    (gameStateUpdate cfg L keys mouse gs dt).position = gs.position ∧
    (gameStateUpdate cfg L keys mouse gs dt).playerData.deadTimer =
      gs.playerData.deadTimer + dt := by
  have hne : gs.playerData.dead ≠ 0 := by rw [h]; decide
  have hs : timeScale gs = 0 := by unfold timeScale; rw [if_pos hne]
  obtain ⟨_, f2, _, f4, _⟩ := gameStateUpdate_fields cfg L keys mouse gs dt
  obtain ⟨_, _, p3, p4, _, _, p7, _⟩ := preCollision_fields cfg L keys mouse gs dt
  refine ⟨fun i => ?_, ?_, ?_⟩
  · rw [gameStateUpdate_eq, collisionStep_of_dead _ _ _ _ (by rw [p3]; exact hne), hs, mul_zero,
      processVelocities_positions cfg _ 0 i, p7]
    split_ifs
    · exact vectorAdd_zero_scaled _ _
    · rfl
  · rw [f4, preCollision_position_of_dead cfg L keys mouse gs dt hne]
  · rw [f2, p4, if_pos hne]

/-- C8 at a concrete state: the initial table after the player has died, one frame of
16.67 ms with the forward key held. -/
theorem death_freeze_witness :
    (setDead (exampleState : GameState ℝ)).playerData.dead = 1 ∧
    ((∀ i, (gameStateUpdate exampleConfig ⟨Real.sqrt, Real.sin, Real.cos, Real.pi⟩
        ⟨false, false, true, false, false, false⟩ (0, 0) (setDead exampleState)
        (1667 / 100)).manager.positions i = (setDead exampleState).manager.positions i) ∧
    (gameStateUpdate exampleConfig ⟨Real.sqrt, Real.sin, Real.cos, Real.pi⟩
        ⟨false, false, true, false, false, false⟩ (0, 0) (setDead exampleState)
        (1667 / 100)).position = (setDead exampleState).position ∧
    (gameStateUpdate exampleConfig ⟨Real.sqrt, Real.sin, Real.cos, Real.pi⟩
        ⟨false, false, true, false, false, false⟩ (0, 0) (setDead exampleState)
        (1667 / 100)).playerData.deadTimer =
      (setDead exampleState).playerData.deadTimer + 1667 / 100) :=
  ⟨rfl, death_freeze exampleConfig ⟨Real.sqrt, Real.sin, Real.cos, Real.pi⟩
    ⟨false, false, true, false, false, false⟩ (0, 0) (setDead exampleState) (1667 / 100) rfl⟩

end Death

/-! ## The turn accumulator -/

section Turning

variable {K : Type} [LinearOrderedField K]

theorem turningTime_pos : (0 : K) < TURNING_TIME := by
  unfold TURNING_TIME; norm_num

/-- The clamp of lines 141-142 always lands in `[-TURNING_TIME, TURNING_TIME]`. -/
theorem handleTurning_bounded (keys : Keys) (turn dt : K) :
    -TURNING_TIME ≤ handleTurning keys turn dt ∧ handleTurning keys turn dt ≤ TURNING_TIME := by
  have hT : (0 : K) < TURNING_TIME := turningTime_pos
  have key : ∀ t1 : K,
      -TURNING_TIME ≤ (if t1 < -TURNING_TIME then -TURNING_TIME
        else if t1 > TURNING_TIME then TURNING_TIME else t1) ∧
      (if t1 < -TURNING_TIME then -TURNING_TIME
        else if t1 > TURNING_TIME then TURNING_TIME else t1) ≤ TURNING_TIME := by
    intro t1
    split_ifs with h1 h2
    · exact ⟨le_refl _, by linarith⟩
    · exact ⟨by linarith, le_refl _⟩
    · exact ⟨not_lt.1 h1, not_lt.1 h2⟩
  exact key _

/-- With both turn keys held the exclusive-or of line 132 is false and the relaxation branch
of lines 135-139 runs. -/
theorem handleTurning_both (keys : Keys) (turn dt : K) (hA : keys.SDL_SCANCODE_A = true)
    (hD : keys.SDL_SCANCODE_D = true) (hlo : -TURNING_TIME ≤ turn) (hhi : turn ≤ TURNING_TIME)
    (hdt : 0 ≤ dt) :
    handleTurning keys turn dt =
      if |turn| < TURNING_TIME / 3 then
        (if turn < -dt then turn + dt else if turn > dt then turn - dt else 0)
      else turn := by
  have hT : (0 : K) < TURNING_TIME := turningTime_pos
  unfold handleTurning
  simp only [hA, hD, Bool.xor_self, Bool.false_eq_true, if_false]
  by_cases h3 : |turn| < TURNING_TIME / 3
  · rw [if_pos h3]
    have hb := abs_lt.1 h3
    split_ifs <;> first | rfl | linarith
  · rw [if_neg h3]
    rw [if_neg (not_lt.2 hlo), if_neg (not_lt.2 hhi)]

theorem runFrames_append (cfg : Config) (L : MathLib K) (gs : GameState K)
    (fs : List (Frame K)) (f : Frame K) :
    runFrames cfg L gs (fs ++ [f]) = runFrame cfg L (runFrames cfg L gs fs) f := by
  unfold runFrames
  rw [List.foldl_append]
  rfl

theorem runFrame_turn_bounded (cfg : Config) (L : MathLib K) (gs : GameState K) (f : Frame K)
    (h : -TURNING_TIME ≤ gs.playerData.turn ∧ gs.playerData.turn ≤ TURNING_TIME) :
    -TURNING_TIME ≤ (runFrame cfg L gs f).playerData.turn ∧
      (runFrame cfg L gs f).playerData.turn ≤ TURNING_TIME := by
  unfold runFrame
  rw [gameStateUpdate_turn]
  split_ifs
  · exact h
  · exact handleTurning_bounded _ _ _

theorem runFrames_turn_bounded (cfg : Config) (L : MathLib K) (fs : List (Frame K))
    (gs : GameState K)
    (h : -TURNING_TIME ≤ gs.playerData.turn ∧ gs.playerData.turn ≤ TURNING_TIME) :
    -TURNING_TIME ≤ (runFrames cfg L gs fs).playerData.turn ∧
      (runFrames cfg L gs fs).playerData.turn ≤ TURNING_TIME := by
  induction fs generalizing gs with
  | nil => exact h
  | cons f fs ih =>
    unfold runFrames
    rw [List.foldl_cons]
    exact ih _ (runFrame_turn_bounded cfg L gs f h)

/-- One Playing frame with only the left key held, for a living player: the accumulator
drops by `dt` and is clamped. -/
theorem runFrame_left (cfg : Config) (L : MathLib K) (gs : GameState K) (keys : Keys)
    (mouse : Int × Int) (dt : K) (hA : keys.SDL_SCANCODE_A = true)
    (hD : keys.SDL_SCANCODE_D = false) (halive : gs.playerData.dead = 0) :
    (runFrame cfg L gs ⟨0, dt, keys, mouse⟩).playerData.turn =
      if gs.playerData.turn + -dt < -TURNING_TIME then -TURNING_TIME
      else if gs.playerData.turn + -dt > TURNING_TIME then TURNING_TIME
      else gs.playerData.turn + -dt := by
  unfold runFrame
  rw [gameStateUpdate_turn]
  have hs : timeScale ({ gs with noclip := 0 } : GameState K) = 1 := by
    unfold timeScale
    rw [if_neg (not_not.2 halive)]
  rw [hs, mul_one]
  simp only [ne_eq, not_true_eq_false, if_false]
  unfold handleTurning
  simp only [hA, hD, Bool.xor_false, if_true]

theorem runFrame_left_playing (cfg : Config) (L : MathLib K) (gs : GameState K) (keys : Keys)
    (mouse : Int × Int) (hA : keys.SDL_SCANCODE_A = true)
    (hD : keys.SDL_SCANCODE_D = false) (halive : gs.playerData.dead = 0) :
    (runFrame cfg L gs (playingFrame keys mouse)).playerData.turn =
      if gs.playerData.turn + -(1667 / 100) < -TURNING_TIME then -TURNING_TIME
      else if gs.playerData.turn + -(1667 / 100) > TURNING_TIME then TURNING_TIME
      else gs.playerData.turn + -(1667 / 100) :=
  runFrame_left cfg L gs keys mouse (1667 / 100) hA hD halive

/-- Holding the left key for `k ≤ 89` frames of 16.67 ms, while alive, accumulates
`-16.67 k` without reaching the clamp. -/
theorem runFrames_left (cfg : Config) (L : MathLib K) (gs : GameState K) (keys : Keys)
    (mouse : Int × Int) (hA : keys.SDL_SCANCODE_A = true) (hD : keys.SDL_SCANCODE_D = false)
    (h0 : gs.playerData.turn = 0) (k : Nat) (hk : k ≤ 89)
    (halive : ∀ j, j < k →
      (runFrames cfg L gs (List.replicate j (playingFrame keys mouse))).playerData.dead = 0) :
    (runFrames cfg L gs (List.replicate k (playingFrame keys mouse))).playerData.turn =
      -((k : K) * (1667 / 100)) := by
  induction k with
  | zero => simp [runFrames, h0]
  | succ k ih =>
    have ihk := ih (by omega) (fun j hj => halive j (by omega))
    rw [List.replicate_succ', runFrames_append,
      runFrame_left_playing cfg L _ keys mouse hA hD (halive k (by omega)), ihk]
    have hk1 : ((k : K) + 1) ≤ 89 := by exact_mod_cast hk
    have hk0 : (0 : K) ≤ (k : K) := Nat.cast_nonneg k
    rw [if_neg (by unfold TURNING_TIME; linarith),
      if_neg (by unfold TURNING_TIME; linarith)]
    push_cast
    ring

/-- Without another entity holding position, velocity and collider, `processCollisions`
changes nothing. -/
theorem processCollisions_of_no_other (cfg : Config) (sqrt : K → K) (gs : GameState K) (dt : K)
    (h : ∀ j, 0 < j → ¬ hasMask (gs.manager.entityMasks j)
      (cfg.POSITION_COMPONENT_MASK ||| cfg.VELOCITY_COMPONENT_MASK |||
        cfg.COLLIDER_COMPONENT_MASK)) :
    processCollisions cfg sqrt gs dt = gs := by
  rw [processCollisions_eq]
  split_ifs
  · unfold processCollisionsBody
    simp only []
    split_ifs
    · apply (processCollisions_inner cfg sqrt dt 0 _ gs).2
      rintro ⟨j, hj, hc⟩
      have hj1 : 0 < j := by
        have := (List.mem_range'_1.1 hj).1
        omega
      exact h j hj1 hc.1
    · rfl
  · rfl

theorem runFrame_alive_of_no_other (cfg : Config) (L : MathLib K) (gs : GameState K)
    (f : Frame K)
    (h : ∀ j, 0 < j → ¬ hasMask (gs.manager.entityMasks j)
      (cfg.POSITION_COMPONENT_MASK ||| cfg.VELOCITY_COMPONENT_MASK |||
        cfg.COLLIDER_COMPONENT_MASK))
    (halive : gs.playerData.dead = 0) :
    (runFrame cfg L gs f).playerData.dead = 0 ∧
    (runFrame cfg L gs f).manager.entityMasks = gs.manager.entityMasks := by
  unfold runFrame
  obtain ⟨_, _, p3, _, _, p6, _, _⟩ :=
    preCollision_fields cfg L f.keys f.mouse ({ gs with noclip := f.noclip }) f.dt
  constructor
  · rw [gameStateUpdate_eq]
    show (collisionStep cfg L _ _).playerData.dead = 0
    unfold collisionStep
    rw [if_pos (by rw [p3]; exact not_not.2 halive),
      processCollisions_of_no_other _ _ _ _ (by rw [p6]; exact h), p3]
    exact halive
  · rw [(gameStateUpdate_fields cfg L f.keys f.mouse _ f.dt).2.2.2.2, p6]

theorem runFrames_alive_of_no_other (cfg : Config) (L : MathLib K) (fs : List (Frame K))
    (gs : GameState K)
    (h : ∀ j, 0 < j → ¬ hasMask (gs.manager.entityMasks j)
      (cfg.POSITION_COMPONENT_MASK ||| cfg.VELOCITY_COMPONENT_MASK |||
        cfg.COLLIDER_COMPONENT_MASK))
    (halive : gs.playerData.dead = 0) :
    (runFrames cfg L gs fs).playerData.dead = 0 := by
  induction fs generalizing gs with
  | nil => exact halive
  | cons f fs ih =>
    unfold runFrames
    rw [List.foldl_cons]
    obtain ⟨h1, h2⟩ := runFrame_alive_of_no_other cfg L gs f h halive
    exact ih _ (by rw [h2]; exact h) h1

/-- In the example table only the player holds a collider. -/
theorem exampleState_no_other (j : Nat) (hj : 0 < j) :
    ¬ hasMask ((exampleState : GameState K).manager.entityMasks j)
      (exampleConfig.POSITION_COMPONENT_MASK ||| exampleConfig.VELOCITY_COMPONENT_MASK |||
        exampleConfig.COLLIDER_COMPONENT_MASK) := by
  unfold exampleState exampleConfig hasMask
  simp only []
  rw [if_neg (by omega)]
  split_ifs <;> decide

theorem exampleState_turn : (exampleState : GameState K).playerData.turn = 0 := rfl

/-- With a scaled time of zero the turning code leaves an accumulator of
`[-TURNING_TIME, TURNING_TIME]` as it is. -/
theorem handleTurning_zero (keys : Keys) (turn : K) (hlo : -TURNING_TIME ≤ turn)
    (hhi : turn ≤ TURNING_TIME) : handleTurning keys turn 0 = turn := by
  have key : ∀ t1 : K, t1 = turn →
      (if t1 < -TURNING_TIME then -TURNING_TIME
        else if t1 > TURNING_TIME then TURNING_TIME else t1) = turn := by
    intro t1 h1
    rw [h1, if_neg (not_lt.2 hlo), if_neg (not_lt.2 hhi)]
  unfold handleTurning
  apply key
  split_ifs <;> first | simp | linarith

/-- A dead player keeps the accumulator through a frame. -/
theorem runFrame_turn_of_dead (cfg : Config) (L : MathLib K) (gs : GameState K) (f : Frame K)
    (hdead : gs.playerData.dead = 1) (hlo : -TURNING_TIME ≤ gs.playerData.turn)
    (hhi : gs.playerData.turn ≤ TURNING_TIME) :
    (runFrame cfg L gs f).playerData.turn = gs.playerData.turn ∧
      (runFrame cfg L gs f).playerData.dead = 1 := by
  have hne : ({ gs with noclip := f.noclip } : GameState K).playerData.dead ≠ 0 := by
    show gs.playerData.dead ≠ 0
    rw [hdead]; decide
  unfold runFrame
  constructor
  · rw [gameStateUpdate_turn]
    have hs : timeScale ({ gs with noclip := f.noclip } : GameState K) = 0 := by
      unfold timeScale; rw [if_pos hne]
    rw [hs, mul_zero]
    split_ifs
    · rfl
    · exact handleTurning_zero _ _ hlo hhi
  · rw [gameStateUpdate_dead_of_dead _ _ _ _ _ _ hne]
    exact hdead

theorem runFrames_turn_of_dead (cfg : Config) (L : MathLib K) (fs : List (Frame K))
    (gs : GameState K) (hdead : gs.playerData.dead = 1)
    (hlo : -TURNING_TIME ≤ gs.playerData.turn) (hhi : gs.playerData.turn ≤ TURNING_TIME) :
    (runFrames cfg L gs fs).playerData.turn = gs.playerData.turn := by
  induction fs generalizing gs with
  | nil => rfl
  | cons f fs ih =>
    unfold runFrames
    rw [List.foldl_cons]
    obtain ⟨h1, h2⟩ := runFrame_turn_of_dead cfg L gs f hdead hlo hhi
    have := ih (runFrame cfg L gs f) h2 (by rw [h1]; exact hlo) (by rw [h1]; exact hhi)
    unfold runFrames at this
    rw [this, h1]

/-- When the player is entity 0 and some other entity collides with it whatever the
displacement, a living player is dead after the simulation step. -/
theorem gameStateUpdate_dead_of_collision (cfg : Config) (L : MathLib K) (keys : Keys)
    (mouse : Int × Int) (gs : GameState K) (dt : K) (hp : gs.player = 0)
    (hmax : 0 < cfg.MAX_ENTITIES) (halive : gs.playerData.dead = 0)
    (hmask : hasMask (gs.manager.entityMasks 0)
      (cfg.POSITION_COMPONENT_MASK ||| cfg.VELOCITY_COMPONENT_MASK |||
        cfg.COLLIDER_COMPONENT_MASK))
    (j : Nat) (hj0 : j ≠ 0) (hjm : j < cfg.MAX_ENTITIES)
    (hjmask : hasMask (gs.manager.entityMasks j)
      (cfg.POSITION_COMPONENT_MASK ||| cfg.VELOCITY_COMPONENT_MASK |||
        cfg.COLLIDER_COMPONENT_MASK))
    (hcol : ∀ m, isSphereCollision L.sqrt (gs.manager.positions 0) (gs.manager.positions j)
      (gs.manager.colliders 0) (gs.manager.colliders j) m = true) :
    (gameStateUpdate cfg L keys mouse gs dt).playerData.dead = 1 := by
  obtain ⟨p1, _, p3, _, _, p6, p7, p8⟩ := preCollision_fields cfg L keys mouse gs dt
  rw [gameStateUpdate_eq]
  show (collisionStep cfg L _ _).playerData.dead = 1
  unfold collisionStep
  rw [if_pos (by rw [p3]; exact not_not.2 halive)]
  rw [processCollisions_player_zero cfg L.sqrt _ _ (by rw [p1]; exact hp) hmax
    (by rw [p3]; exact halive) (by rw [p6]; exact hmask)]
  refine ⟨j, hj0, hjm, ?_⟩
  unfold pairCollides
  rw [p6, p7, p8]
  exact ⟨hjmask, hcol _⟩

/-- Spheres with a common centre and a positive combined radius collide for every
displacement. -/
theorem isSphereCollision_coincident (pos0 pos1 : VECTOR ℝ) (r0 r1 : ℝ) (m : VECTOR ℝ)
    (hx : pos1.x = pos0.x) (hy : pos1.y = pos0.y) (hz : pos1.z = pos0.z)
    (hR : 0 < r0 + r1) : isSphereCollision Real.sqrt pos0 pos1 r0 r1 m = true := by
  have hc : ∀ n : VECTOR ℝ, Vector3Dot n (VectorSubtract pos1 pos0) = 0 := by
    intro n
    simp [Vector3Dot, VectorSubtract, hx, hy, hz]
  have hl : Vector3Length Real.sqrt (VectorSubtract pos1 pos0) = 0 := by
    unfold Vector3Length
    rw [hc]
    exact Real.sqrt_zero
  have hm : 0 ≤ Vector3Length Real.sqrt m := Real.sqrt_nonneg _
  have hsq : 0 < (r0 + r1) * (r0 + r1) := mul_pos hR hR
  unfold isSphereCollision
  simp only [hc, hl]
  rw [if_neg (by linarith), if_neg (by linarith), if_neg (by simp; linarith),
    if_neg (by simp; linarith)]
  simp only [decide_eq_true_eq, ge_iff_le]
  have := Real.sqrt_nonneg ((r0 + r1) * (r0 + r1) - (0 - 0 * 0))
  linarith

/-- C6 (as stated, refuted): from the initialised state with an enemy standing on the player,
holding the left key for 90 Playing frames of 16.67 ms leaves `turn = -16.67`, not `-1500`:
the player dies in the first frame and the scaled time is zero from then on. -/
theorem turn_left_key_player_dies :
    (crowdedState : GameState ℝ).playerData.turn = 0 ∧
    (crowdedState : GameState ℝ).playerData.dead = 0 ∧
    (crowdedState : GameState ℝ).noclip = 0 ∧
    (runFrames exampleConfig ⟨Real.sqrt, Real.sin, Real.cos, Real.pi⟩ crowdedState
      (List.replicate 90
        (playingFrame ⟨true, false, false, false, false, false⟩ (0, 0)))).playerData.turn =
      -(1667 / 100) ∧
    (runFrames exampleConfig ⟨Real.sqrt, Real.sin, Real.cos, Real.pi⟩ crowdedState
      (List.replicate 90
        (playingFrame ⟨true, false, false, false, false, false⟩ (0, 0)))).playerData.turn ≠
      -TURNING_TIME := by
  have hturn : (runFrame exampleConfig ⟨Real.sqrt, Real.sin, Real.cos, Real.pi⟩
      (crowdedState : GameState ℝ)
      (playingFrame ⟨true, false, false, false, false, false⟩ (0, 0))).playerData.turn =
      -(1667 / 100) := by
    rw [runFrame_left_playing _ _ _ _ _ rfl rfl rfl]
    norm_num [crowdedState, TURNING_TIME]
  have hdead : (runFrame exampleConfig ⟨Real.sqrt, Real.sin, Real.cos, Real.pi⟩
      (crowdedState : GameState ℝ)
      (playingFrame ⟨true, false, false, false, false, false⟩ (0, 0))).playerData.dead = 1 := by
    unfold runFrame
    apply gameStateUpdate_dead_of_collision _ _ _ _ _ _ rfl (by decide) rfl (by decide) 2
      (by decide) (by decide) (by decide)
    intro m
    apply isSphereCollision_coincident _ _ _ _ _ rfl rfl rfl
    norm_num [crowdedState]
  have hall : (runFrames exampleConfig ⟨Real.sqrt, Real.sin, Real.cos, Real.pi⟩ crowdedState
      (List.replicate 90
        (playingFrame ⟨true, false, false, false, false, false⟩ (0, 0)))).playerData.turn =
      -(1667 / 100) := by
    rw [List.replicate_succ]
    unfold runFrames
    rw [List.foldl_cons]
    have := runFrames_turn_of_dead exampleConfig ⟨Real.sqrt, Real.sin, Real.cos, Real.pi⟩
      (List.replicate 89 (playingFrame ⟨true, false, false, false, false, false⟩ (0, 0)))
      _ hdead (by rw [hturn]; norm_num [TURNING_TIME]) (by rw [hturn]; norm_num [TURNING_TIME])
    unfold runFrames at this
    rw [this, hturn]
  refine ⟨exampleState_turn, rfl, rfl, hall, ?_⟩
  rw [hall]
  norm_num [TURNING_TIME]

/-- C6 (amended): starting with `turn = 0`, after any finite sequence of frames (any elapsed
times, key states, mouse deltas and modes) the accumulator lies in
`[-TURNING_TIME, TURNING_TIME]` with `TURNING_TIME = 1500`; and 90 Playing frames of 16.67 ms
with the left key held and the right key released leave `turn = -1500`, provided the player
is alive at the start of each of these frames. -/
theorem turn_bounded (cfg : Config) (L : MathLib K) (gs : GameState K)
    (h0 : gs.playerData.turn = 0) :
    (TURNING_TIME : K) = 1500 ∧
    (∀ fs : List (Frame K),
      -TURNING_TIME ≤ (runFrames cfg L gs fs).playerData.turn ∧
        (runFrames cfg L gs fs).playerData.turn ≤ TURNING_TIME) ∧
    (∀ (keys : Keys) (mouse : Int × Int), keys.SDL_SCANCODE_A = true →
      keys.SDL_SCANCODE_D = false →
      (∀ j, j < 90 →
        (runFrames cfg L gs
          (List.replicate j (playingFrame keys mouse))).playerData.dead = 0) →
      (runFrames cfg L gs (List.replicate 90 (playingFrame keys mouse))).playerData.turn =
        -TURNING_TIME) := by
  refine ⟨rfl, fun fs => ?_, fun keys mouse hA hD halive => ?_⟩
  · apply runFrames_turn_bounded
    rw [h0]
    exact ⟨by linarith [turningTime_pos (K := K)], le_of_lt turningTime_pos⟩
  · have h89 := runFrames_left cfg L gs keys mouse hA hD h0 89 (le_refl _)
      (fun j hj => halive j (by omega))
    rw [List.replicate_succ', runFrames_append,
      runFrame_left_playing cfg L _ keys mouse hA hD (halive 89 (by omega)), h89]
    rw [if_pos (by unfold TURNING_TIME; norm_num)]

/-- C6 (amended) at a concrete state: the initial table without enemies, over the reals. -/
theorem turn_bounded_witness :
    (exampleState : GameState ℝ).playerData.turn = 0 ∧
    (∀ fs : List (Frame ℝ),
      -TURNING_TIME ≤ (runFrames exampleConfig ⟨Real.sqrt, Real.sin, Real.cos, Real.pi⟩
          exampleState fs).playerData.turn ∧
        (runFrames exampleConfig ⟨Real.sqrt, Real.sin, Real.cos, Real.pi⟩
          exampleState fs).playerData.turn ≤ TURNING_TIME) ∧
    (runFrames exampleConfig ⟨Real.sqrt, Real.sin, Real.cos, Real.pi⟩ exampleState
      (List.replicate 90
        (playingFrame ⟨true, false, false, false, false, false⟩ (0, 0)))).playerData.turn =
      -TURNING_TIME :=
  ⟨exampleState_turn,
    (turn_bounded exampleConfig ⟨Real.sqrt, Real.sin, Real.cos, Real.pi⟩ exampleState
      exampleState_turn).2.1,
    (turn_bounded exampleConfig ⟨Real.sqrt, Real.sin, Real.cos, Real.pi⟩ exampleState
      exampleState_turn).2.2
      ⟨true, false, false, false, false, false⟩ (0, 0) rfl rfl
      (fun _ _ => runFrames_alive_of_no_other _ _ _ _ exampleState_no_other rfl)⟩

/-- C5 (as stated, refuted): in Playing mode with the left and the right key both held,
`turn = 100` and `dt = 10`, the update stores `turn = 90`: the accumulator changes. -/
theorem turn_both_keys_changes :
    (turnedState : GameState ℝ).noclip = 0 ∧
    (-TURNING_TIME ≤ (turnedState : GameState ℝ).playerData.turn ∧
      (turnedState : GameState ℝ).playerData.turn ≤ TURNING_TIME) ∧
    (0 : ℝ) ≤ 10 ∧
    (gameStateUpdate exampleConfig ⟨Real.sqrt, Real.sin, Real.cos, Real.pi⟩
      ⟨true, true, false, false, false, false⟩ (0, 0) turnedState 10).playerData.turn = 90 ∧
    (gameStateUpdate exampleConfig ⟨Real.sqrt, Real.sin, Real.cos, Real.pi⟩
      ⟨true, true, false, false, false, false⟩ (0, 0) turnedState 10).playerData.turn ≠
      (turnedState : GameState ℝ).playerData.turn := by
  have h : (gameStateUpdate exampleConfig ⟨Real.sqrt, Real.sin, Real.cos, Real.pi⟩
      ⟨true, true, false, false, false, false⟩ (0, 0) turnedState 10).playerData.turn = 90 := by
    rw [gameStateUpdate_turn]
    norm_num [turnedState, exampleState, handleTurning, timeScale, TURNING_TIME]
  refine ⟨rfl, ?_, by norm_num, h, ?_⟩
  · norm_num [turnedState, TURNING_TIME]
  · rw [h]
    norm_num [turnedState]

/-- C5 (amended): in Playing mode with the left and the right key both held, the update
handles the accumulator as when no key is held: for `turn` in
`[-TURNING_TIME, TURNING_TIME]` and `dt ≥ 0` it is unchanged when `|turn| ≥ TURNING_TIME / 3`,
and otherwise moves toward zero by the scaled time `dt * timeScale`, stopping at zero. -/
theorem turn_both_keys (cfg : Config) (L : MathLib K) (keys : Keys) (mouse : Int × Int)
    (gs : GameState K) (dt : K) (hno : gs.noclip = 0)
    (hA : keys.SDL_SCANCODE_A = true) (hD : keys.SDL_SCANCODE_D = true)
    (hlo : -TURNING_TIME ≤ gs.playerData.turn) (hhi : gs.playerData.turn ≤ TURNING_TIME)
    (hdt : 0 ≤ dt) :
    (gameStateUpdate cfg L keys mouse gs dt).playerData.turn =
      if |gs.playerData.turn| < TURNING_TIME / 3 then
        (if gs.playerData.turn < -(dt * timeScale gs) then
          gs.playerData.turn + dt * timeScale gs
        else if gs.playerData.turn > dt * timeScale gs then
          gs.playerData.turn - dt * timeScale gs
        else 0)
      else gs.playerData.turn := by
  have hs : 0 ≤ dt * timeScale gs := by
    apply mul_nonneg hdt
    unfold timeScale
    split_ifs <;> norm_num
  rw [gameStateUpdate_turn, if_neg (not_not.2 hno),
    handleTurning_both keys _ _ hA hD hlo hhi hs]

/-- C5 (amended) at a concrete state: `turn = 100`, `dt = 10`, both keys held. -/
theorem turn_both_keys_witness :
    (turnedState : GameState ℝ).noclip = 0 ∧
    (gameStateUpdate exampleConfig ⟨Real.sqrt, Real.sin, Real.cos, Real.pi⟩
      ⟨true, true, false, false, false, false⟩ (0, 0) turnedState 10).playerData.turn =
      if |(turnedState : GameState ℝ).playerData.turn| < TURNING_TIME / 3 then
        (if (turnedState : GameState ℝ).playerData.turn < -(10 * timeScale turnedState) then
          (turnedState : GameState ℝ).playerData.turn + 10 * timeScale turnedState
        else if (turnedState : GameState ℝ).playerData.turn > 10 * timeScale turnedState then
          (turnedState : GameState ℝ).playerData.turn - 10 * timeScale turnedState
        else 0)
      else (turnedState : GameState ℝ).playerData.turn :=
  ⟨rfl, turn_both_keys exampleConfig ⟨Real.sqrt, Real.sin, Real.cos, Real.pi⟩
    ⟨true, true, false, false, false, false⟩ (0, 0) turnedState 10 rfl rfl rfl
    (by norm_num [turnedState, TURNING_TIME]) (by norm_num [turnedState, TURNING_TIME])
    (by norm_num)⟩

end Turning

/-! ## The yaw -/

section Yaw

variable {K : Type} [LinearOrderedField K]

end Yaw

/-! ## The collision check -/

section CollisionCheck

variable {K : Type} [LinearOrderedField K]

/-- A sphere of radius 0.5 one unit away along X, approached by one unit in this frame,
collides with a sphere of radius 0.2 at the origin. -/
theorem isSphereCollision_approach :
    isSphereCollision Real.sqrt (VectorSet 0 0 0 1) (VectorSet 1 0 0 1) (2 / 10) (5 / 10)
      (VectorSet 1 0 0 0) = true := by
  have hz : ¬ (VectorEqual (VectorSet (1 : ℝ) 0 0 0) (VectorReplicate 0) &&& 0x7 = 0x7) := by
    rw [vectorEqual_zero_iff]
    simp [VectorSet]
  unfold isSphereCollision
  simp only [hz, if_false]
  norm_num [Vector3Length, Vector3Dot, Vector4Normalize, Vector4Length, Vector4Dot,
    VectorDivide, VectorReplicate, VectorSubtract, VectorSet]
  positivity

/-- C2 (the code at the failing input): with the player at index 1 and an enemy at index 0
that collides with the player in this frame, both holding position, velocity and collider,
`processCollisions` leaves `dead = 0`. -/
theorem processCollisions_player_one_untested :
    (playerOneState : GameState ℝ).player = 1 ∧
    (playerOneState : GameState ℝ).player < exampleConfig.MAX_ENTITIES ∧
    hasMask ((playerOneState : GameState ℝ).manager.entityMasks 1)
      (exampleConfig.POSITION_COMPONENT_MASK ||| exampleConfig.VELOCITY_COMPONENT_MASK |||
        exampleConfig.COLLIDER_COMPONENT_MASK) ∧
    pairCollides exampleConfig Real.sqrt 100 (playerOneState : GameState ℝ) 1 0 ∧
    (processCollisions exampleConfig Real.sqrt (playerOneState : GameState ℝ)
      100).playerData.dead = 0 := by
  refine ⟨rfl, by decide, by decide, ⟨by decide, ?_⟩, ?_⟩
  · have hm : VectorMultiply (VectorReplicate (100 : ℝ))
        (VectorSubtract ((playerOneState : GameState ℝ).manager.velocities 1)
          ((playerOneState : GameState ℝ).manager.velocities 0)) = VectorSet 1 0 0 0 := by
      norm_num [playerOneState, VectorMultiply, VectorReplicate, VectorSubtract, VectorSet]
    rw [hm]
    have := isSphereCollision_approach
    norm_num [playerOneState] at this ⊢
    exact this
  · rw [processCollisions_eq, if_neg (by decide)]
    rfl

end CollisionCheck

end FpsGame
